import Mathlib

/-!
Shallow embedding of the Swarms CLI front end (`swarms/cli/main.py`).

The CLI is single-threaded and synchronous; we model it as pure functions:
  * the file system state relevant to the program is the content of the one
    file it touches, `cache.txt`;
  * console output is a list of printed messages (rich markup stripped);
  * calls to external collaborators (`OnboardingProcess.run`,
    `create_agents_from_yaml`, `generate_swarm_config`, `webbrowser.open`,
    the two `pip` subprocesses) are recorded as events, and their behaviour
    (return / raise) is supplied by oracles;
  * Python exceptions are modelled by their `str(e)` text; `exit(n)` raises
    `SystemExit`, which `except Exception` does not catch.
-/

namespace SwarmsCLI

/-! ## Python string primitives used by the CLI -/

/-- Whitespace characters stripped by Python `str.strip()` (ASCII part). -/
def pyIsSpace (c : Char) : Bool :=
  c = ' ' || c = '\t' || c = '\n' || c = '\r' || c = '\x0b' || c = '\x0c'

/-- Python `s.strip()`: drop leading and trailing whitespace. -/
def pyStrip (s : String) : String :=
  ⟨((s.data.dropWhile pyIsSpace).reverse.dropWhile pyIsSpace).reverse⟩

/-- Does the second character list occur as a leading segment of the first? -/
def listLeading : List Char → List Char → Bool
  | _, [] => true
  | [], _ :: _ => false
  | c :: cs, d :: ds => c = d && listLeading cs ds

/-- Python `s.startswith(pre)`. -/
def pyStartsWith (s pre : String) : Bool := listLeading s.data pre.data

/-- Does `needle` occur as a contiguous segment somewhere in `hay`? -/
def listContainsSub (hay needle : List Char) : Bool :=
  match hay with
  | [] => needle.isEmpty
  | _ :: t => listLeading hay needle || listContainsSub t needle

/-- Python `needle in hay` on strings. -/
def pyIn (needle hay : String) : Bool := listContainsSub hay.data needle.data

/-- Python truthiness of an optional string flag: `None` and `""` are falsy. -/
def pyFalsy : Option String → Bool
  | none => true
  | some s => s = ""

/-! ## Data model -/

/-- The file-system state the CLI reads and writes: the content of
`cache.txt` in the working directory, `none` when the file is absent. -/
structure FSState where
  cacheTxt : Option String
deriving DecidableEq, Repr

/-- Result of `check_login`: new file-system state, printed messages, and
the returned boolean. -/
structure CheckLoginResult where
  fs : FSState
  output : List String
  ret : Bool
deriving DecidableEq, Repr

/-- Events recording each invocation of an external collaborator or
subprocess. -/
inductive ExtCall where
  | onboardingRun : ExtCall
  | openBrowser : String → ExtCall
  | createAgentsFromYaml : String → String → ExtCall
  | generateSwarmConfig : String → String → ExtCall
  | pipListOutdated : ExtCall
  | pipInstallUpgrade : String → ExtCall
deriving DecidableEq, Repr

/-- How the process run ends: `exited c` models an uncaught `SystemExit`
with status `c` (from `exit(c)` or an argparse usage error), `returned`
models `main` returning normally (process exit status 0), and `raised e`
models `main` re-raising an exception `e` (non-zero exit status). -/
inductive Outcome where
  | exited : Nat → Outcome
  | returned : Outcome
  | raised : String → Outcome
deriving DecidableEq, Repr

/-- The process exit status an outcome produces (an uncaught Python
exception terminates the interpreter with status 1). -/
def Outcome.exitCode : Outcome → Nat
  | Outcome.exited c => c
  | Outcome.returned => 0
  | Outcome.raised _ => 1

/-- Behaviour of the external collaborators for one run: each is either a
normal return or a raised exception, given by its `str(e)` text.
`genResult` also records the truthiness of `generate_swarm_config`'s
return value (`Except.ok b` returns a value that is truthy iff `b`). -/
structure Oracles where
  loaderExc : Option String
  genResult : Except String Bool
  outdated : List String
  installerExc : Option String
deriving Repr

/-- Result of a whole `main` run: external calls made, console output,
final file-system state, and how the process ended. -/
structure MainResult where
  calls : List ExtCall
  output : List String
  fs : FSState
  outcome : Outcome
deriving DecidableEq, Repr

/-! ## The CLI functions -/

/-- The banner printed by `show_ascii_art` before argument parsing. -/
def ASCII_ART : String :=
  "\n" ++
  "   ▄████████  ▄█     █▄     ▄████████    ▄████████   ▄▄▄▄███▄▄▄▄      ▄████████\n" ++
  "  ███    ███ ███     ███   ███    ███   ███    ███ ▄██▀▀▀███▀▀▀██▄   ███    ███\n" ++
  "  ███    █▀  ███     ███   ███    ███   ███    ███ ███   ███   ███   ███    █▀\n" ++
  "  ███        ███     ███   ███    ███  ▄███▄▄▄▄██▀ ███   ███   ███   ███\n" ++
  "▀███████████ ███     ███ ▀███████████ ▀▀███▀▀▀▀▀   ███   ███   ███ ▀███████████\n" ++
  "         ███ ███     ███   ███    ███ ▀███████████ ███   ███   ███          ███\n" ++
  "   ▄█    ███ ███ ▄█▄ ███   ███    ███   ███    ███ ███   ███   ███    ▄█    ███\n" ++
  " ▄████████▀   ▀███▀███▀    ███    █▀    ███    ███  ▀█   ███   █▀   ▄████████▀\n" ++
  "                                        ███    ███\n"

/-- The eight command/description rows of `create_command_table`. -/
def commands_table : List (String × String) :=
  [("onboarding", "Start the interactive onboarding process"),
   ("help", "Display this help message"),
   ("get-api-key", "Retrieve your API key from the platform"),
   ("check-login", "Verify login status and initialize cache"),
   ("run-agents", "Execute agents from your YAML configuration"),
   ("auto-upgrade", "Update Swarms to the latest version"),
   ("book-call", "Schedule a strategy session with our team"),
   ("autoswarm", "Generate and execute an autonomous swarm")]

/-- Output of `show_help`: header, the command table rows, and the docs
pointer. -/
def show_help_output : List String :=
  ["Swarms CLI - Command Reference"]
  ++ commands_table.map (fun row => row.1 ++ ": " ++ row.2)
  ++ ["For detailed documentation, visit: https://docs.swarms.world"]

/-- `check_login`: if `cache.txt` exists and its content reads exactly
`logged_in`, report verified and change nothing; otherwise (absent file or
any other content) write `logged_in` to `cache.txt` and report success.
Always returns `true`. -/
def check_login (fs : FSState) : CheckLoginResult :=
  match fs.cacheTxt with
  | some content =>
      if content = "logged_in" then
        { fs := fs, output := ["✓ Authentication verified"], ret := true }
      else
        { fs := { cacheTxt := some "logged_in" },
          output := ["✓ Login successful!"], ret := true }
  | none =>
      { fs := { cacheTxt := some "logged_in" },
        output := ["✓ Login successful!"], ret := true }

/-- Help text shown with the `Failed to generate YAML configuration`
panel in `run_autoswarm`. -/
def autoswarmYamlHelp : String :=
  "This might be due to an API key issue or invalid model configuration.\n"
  ++ "1. Check if your OpenAI API key is set correctly\n"
  ++ "2. Verify the model name is valid\n"
  ++ "3. Try running with --model gpt-4"

/-- Help text shown with the generic `Error during autoswarm execution`
panel in `run_autoswarm`. -/
def autoswarmGenericHelp : String :=
  "For debugging, try:\n"
  ++ "1. Check your API keys are set correctly\n"
  ++ "2. Verify your network connection\n"
  ++ "3. Try a different model"

/-- The `except Exception` handler of `run_autoswarm` (lines 211-227):
one substring of the exception text is special-cased, everything else
gets the generic panel. Returns the messages `show_error` prints. -/
def autoswarm_exc_handler (e : String) : List String :=
  if pyIn "No YAML content found" e then
    ["Failed to generate YAML configuration", autoswarmYamlHelp]
  else
    ["Error during autoswarm execution: " ++ e, autoswarmGenericHelp]

/-- The `try` block of `run_autoswarm` (lines 179-209): validate `task`
and `model` (raising `SwarmCLIError` on empty or whitespace-only input),
call `generate_swarm_config`, and raise if it returns a falsy value.
Returns the external calls made, the messages printed, and the raised
exception text if any. The `import litellm` / `litellm.set_verbose`
statements are side effects outside this model. -/
def run_autoswarm_try (task model : String) (gen : Except String Bool) :
    List ExtCall × List String × Option String :=
  let out0 := ["Initializing autoswarm configuration..."]
  if task = "" ∨ pyStrip task = "" then
    ([], out0, some "Task cannot be empty")
  else if model = "" ∨ pyStrip model = "" then
    ([], out0, some "Model name cannot be empty")
  else
    let out1 := out0 ++ ["Generating swarm for task: " ++ task]
    match gen with
    | Except.error e =>
        ([ExtCall.generateSwarmConfig task model], out1, some e)
    | Except.ok true =>
        ([ExtCall.generateSwarmConfig task model],
         out1 ++ ["✓ Swarm configuration generated successfully!"], none)
    | Except.ok false =>
        ([ExtCall.generateSwarmConfig task model], out1,
         some "Failed to generate swarm configuration")

/-- `run_autoswarm`: the `try` block with every exception routed through
the handler; the function itself always returns normally. -/
def run_autoswarm (task model : String) (gen : Except String Bool) :
    List ExtCall × List String :=
  match run_autoswarm_try task model gen with
  | (calls, out, none) => (calls, out)
  | (calls, out, some e) => (calls, out ++ autoswarm_exc_handler e)

/-- Result of `check_and_upgrade_version`: calls made, messages printed,
and the exception propagating out of the function if the upgrade
subprocess failed (`check=True` raises `CalledProcessError`). -/
structure UpgradeResult where
  calls : List ExtCall
  output : List String
  exc : Option String
deriving DecidableEq, Repr

/-- `check_and_upgrade_version`: query `pip list --outdated`, scan the
lines for the first one starting with `swarms==`; if found, run
`pip install --upgrade swarms` (whose failure is not caught here),
otherwise report up to date. -/
def check_and_upgrade_version (outdated : List String)
    (installerExc : Option String) : UpgradeResult :=
  match outdated.find? (fun package => pyStartsWith package "swarms==") with
  | some _ =>
      match installerExc with
      | none =>
          { calls := [ExtCall.pipListOutdated, ExtCall.pipInstallUpgrade "swarms"],
            output := ["↑ Update available!", "✓ Swarms upgraded successfully!"],
            exc := none }
      | some e =>
          { calls := [ExtCall.pipListOutdated, ExtCall.pipInstallUpgrade "swarms"],
            output := ["↑ Update available!"],
            exc := some e }
  | none =>
      { calls := [ExtCall.pipListOutdated],
        output := ["✓ Swarms is up to date!"],
        exc := none }

/-! ## Argument parsing and dispatch -/

/-- The eight admissible command literals (`choices=` of the positional
`command` argument). -/
def commandChoices : List String :=
  ["onboarding", "help", "get-api-key", "check-login", "run-agents",
   "auto-upgrade", "book-call", "autoswarm"]

/-- The parsed arguments. -/
structure Args where
  command : String
  yaml_file : String
  task : Option String
  model : String
deriving DecidableEq, Repr

/-- `parser.parse_args()`: an unrecognized command makes argparse print a
usage error and raise `SystemExit(2)`; otherwise the flags are bound with
their defaults (`--yaml-file` defaults to `agents.yaml`, `--model` to
`gpt-4`, `--task` has no default and stays `None` when absent). -/
def parse_args (command : String) (yamlFlag taskFlag modelFlag : Option String) :
    Except Nat Args :=
  if command ∈ commandChoices then
    Except.ok { command := command, yaml_file := yamlFlag.getD "agents.yaml",
                task := taskFlag, model := modelFlag.getD "gpt-4" }
  else
    Except.error 2

/-- The inner `try` of `main` (lines 309-340): the if/elif dispatch on
`args.command`, whose `except Exception` clause prints `Error: <msg>` and
returns (so the process still exits with status 0). `exit(1)` raises
`SystemExit`, which `except Exception` does not catch. -/
def dispatch (args : Args) (orc : Oracles) (fs : FSState) : MainResult :=
  if args.command = "onboarding" then
    { calls := [ExtCall.onboardingRun], output := [], fs := fs,
      outcome := Outcome.returned }
  else if args.command = "help" then
    { calls := [], output := show_help_output, fs := fs,
      outcome := Outcome.returned }
  else if args.command = "get-api-key" then
    { calls := [ExtCall.openBrowser "https://swarms.world/platform/api-keys"],
      output := ["✓ API key page opened in your browser"], fs := fs,
      outcome := Outcome.returned }
  else if args.command = "check-login" then
    let r := check_login fs
    { calls := [], output := r.output, fs := r.fs, outcome := Outcome.returned }
  else if args.command = "run-agents" then
    match orc.loaderExc with
    | none =>
        { calls := [ExtCall.createAgentsFromYaml args.yaml_file "tasks"],
          output := [], fs := fs, outcome := Outcome.returned }
    | some e =>
        { calls := [ExtCall.createAgentsFromYaml args.yaml_file "tasks"],
          output := ["Error: " ++ e], fs := fs, outcome := Outcome.returned }
  else if args.command = "auto-upgrade" then
    let r := check_and_upgrade_version orc.outdated orc.installerExc
    match r.exc with
    | none =>
        { calls := r.calls, output := r.output, fs := fs,
          outcome := Outcome.returned }
    | some e =>
        { calls := r.calls, output := r.output ++ ["Error: " ++ e], fs := fs,
          outcome := Outcome.returned }
  else if args.command = "book-call" then
    { calls := [ExtCall.openBrowser "https://cal.com/swarms/swarms-strategy-session"],
      output := [], fs := fs, outcome := Outcome.returned }
  else if args.command = "autoswarm" then
    if pyFalsy args.task then
      { calls := [],
        output := ["Missing required argument: --task",
          "Example usage: python cli.py autoswarm --task 'analyze this data' --model gpt-4"],
        fs := fs, outcome := Outcome.exited 1 }
    else
      let r := run_autoswarm (args.task.getD "") args.model orc.genResult
      { calls := r.1, output := r.2, fs := fs, outcome := Outcome.returned }
  else
    { calls := [], output := [], fs := fs, outcome := Outcome.returned }

/-- `main`: print the banner, parse the arguments (an unrecognized command
ends the process with the argparse usage status 2 before any action), then
dispatch. The outer `except Exception` (lines 341-345), which would
display and re-raise, is unreachable in this model because every action's
exception is already consumed by the inner handler inside `dispatch`. -/
def main (command : String) (yamlFlag taskFlag modelFlag : Option String)
    (orc : Oracles) (fs : FSState) : MainResult :=
  match parse_args command yamlFlag taskFlag modelFlag with
  | Except.error code =>
      { calls := [], output := [ASCII_ART], fs := fs,
        outcome := Outcome.exited code }
  | Except.ok args =>
      let r := dispatch args orc fs
      { r with output := ASCII_ART :: r.output }

/-! ## Theorems settling the claims -/

set_option maxRecDepth 10000

/-- Claim C3: `check_login` is idempotent — from any starting file-system
state, after the first call and after a second call `cache.txt` contains
exactly `logged_in`, both calls return `true`, and the second call leaves
the state unchanged. -/
theorem check_login_idempotent (fs : FSState) :
    (check_login fs).fs.cacheTxt = some "logged_in" ∧
    (check_login (check_login fs).fs).fs.cacheTxt = some "logged_in" ∧
    (check_login fs).ret = true ∧
    (check_login (check_login fs).fs).ret = true ∧
    (check_login (check_login fs).fs).fs = (check_login fs).fs := by
  obtain ⟨c⟩ := fs
  cases c with
  | none => simp [check_login]
  | some s => by_cases h : s = "logged_in" <;> simp [check_login, h]

/-- Claim C4: `check_login` always returns `true`; when `cache.txt` already
reads exactly `logged_in` it reports `Authentication verified` without
writing, otherwise (absent file or any other content) it writes
`logged_in` and reports `Login successful!` — in particular on a clean
directory it creates the file with that content. -/
theorem check_login_always_succeeds (fs : FSState) :
    (check_login fs).ret = true ∧
    (fs.cacheTxt = some "logged_in" →
      check_login fs = { fs := fs, output := ["✓ Authentication verified"], ret := true }) ∧
    (fs.cacheTxt ≠ some "logged_in" →
      check_login fs = { fs := { cacheTxt := some "logged_in" },
                         output := ["✓ Login successful!"], ret := true }) ∧
    check_login ⟨none⟩ =
      { fs := ⟨some "logged_in"⟩, output := ["✓ Login successful!"], ret := true } := by
  obtain ⟨c⟩ := fs
  cases c with
  | none => simp [check_login]
  | some s => by_cases h : s = "logged_in" <;> simp [check_login, h]

/-- Witness for C4: a `cache.txt` holding stale content is overwritten with
`logged_in` and the call succeeds. -/
theorem check_login_always_succeeds_witness :
    check_login ⟨some "stale"⟩ =
      { fs := ⟨some "logged_in"⟩, output := ["✓ Login successful!"], ret := true } :=
  (check_login_always_succeeds ⟨some "stale"⟩).2.2.1 (by decide)

/-- Claim C5: when no line of the outdated-package query starts with
`swarms==`, `auto-upgrade` prints the up-to-date message and never runs
the installer; when some line starts with that, the installer is run. -/
theorem auto_upgrade_install_condition (outdated : List String) (installerExc : Option String) :
    ((∀ p ∈ outdated, pyStartsWith p "swarms==" = false) →
      "✓ Swarms is up to date!" ∈ (check_and_upgrade_version outdated installerExc).output ∧
      ExtCall.pipInstallUpgrade "swarms" ∉ (check_and_upgrade_version outdated installerExc).calls) ∧
    ((∃ p ∈ outdated, pyStartsWith p "swarms==" = true) →
      ExtCall.pipInstallUpgrade "swarms" ∈ (check_and_upgrade_version outdated installerExc).calls) := by
  constructor
  · intro h
    have hf : outdated.find? (fun package => pyStartsWith package "swarms==") = none := by
      rw [List.find?_eq_none]
      intro x hx
      simp [h x hx]
    simp [check_and_upgrade_version, hf]
  · intro h
    have hf : (outdated.find? (fun package => pyStartsWith package "swarms==")).isSome = true := by
      rw [List.find?_isSome]
      exact h
    obtain ⟨q, hq⟩ := Option.isSome_iff_exists.mp hf
    cases installerExc <;> simp [check_and_upgrade_version, hq]

/-- Witness for C5: a matching line triggers the installer; a query with
only other packages reports up to date. -/
theorem auto_upgrade_install_condition_witness :
    ExtCall.pipInstallUpgrade "swarms" ∈
      (check_and_upgrade_version ["swarms==7.0.0"] none).calls ∧
    "✓ Swarms is up to date!" ∈ (check_and_upgrade_version ["numpy==2.0.0"] none).output :=
  ⟨(auto_upgrade_install_condition ["swarms==7.0.0"] none).2 (by decide),
   ((auto_upgrade_install_condition ["numpy==2.0.0"] none).1 (by decide)).1⟩

/-- Claim C7: any command string outside the eight enumerated literals is
rejected by argument parsing with exit status 2 before any action runs:
no external call is made and the file system is untouched. -/
theorem unknown_command_rejected (cmd : String) (yamlFlag taskFlag modelFlag : Option String)
    (orc : Oracles) (fs : FSState) (h : cmd ∉ commandChoices) :
    (main cmd yamlFlag taskFlag modelFlag orc fs).outcome = Outcome.exited 2 ∧
    (main cmd yamlFlag taskFlag modelFlag orc fs).calls = [] ∧
    (main cmd yamlFlag taskFlag modelFlag orc fs).fs = fs := by
  simp [main, parse_args, h]

/-- Witness for C7: the command `frobnicate` is rejected with status 2. -/
theorem unknown_command_rejected_witness :
    (main "frobnicate" none none none ⟨none, Except.ok true, [], none⟩ ⟨none⟩).outcome =
      Outcome.exited 2 :=
  (unknown_command_rejected "frobnicate" none none none ⟨none, Except.ok true, [], none⟩
      ⟨none⟩ (by decide)).1

/-- Claim C9: `run-agents` calls the YAML loader exactly once, with the
`--yaml-file` value (defaulting to `agents.yaml` when the flag is absent)
and the fixed mode string `tasks`, whatever the loader then does. -/
theorem run_agents_call_contract (yamlFlag taskFlag modelFlag : Option String)
    (orc : Oracles) (fs : FSState) :
    (main "run-agents" yamlFlag taskFlag modelFlag orc fs).calls =
      [ExtCall.createAgentsFromYaml (yamlFlag.getD "agents.yaml") "tasks"] := by
  obtain ⟨le, g, od, ie⟩ := orc
  cases le <;> rfl

/-- Claim C2 (amended): an exception raised by `create_agents_from_yaml`
propagates out of the `run-agents` action (the call site has no local
handler), but it is then caught by the dispatcher's inner catch-all, which
prints `Error: <message>` and returns — so the process exits with
status 0, not non-zero. -/
theorem run_agents_exception_caught_by_dispatcher (yamlFlag taskFlag modelFlag : Option String)
    (e : String) (g : Except String Bool) (od : List String) (ie : Option String) (fs : FSState) :
    (main "run-agents" yamlFlag taskFlag modelFlag ⟨some e, g, od, ie⟩ fs).calls =
      [ExtCall.createAgentsFromYaml (yamlFlag.getD "agents.yaml") "tasks"] ∧
    ("Error: " ++ e) ∈ (main "run-agents" yamlFlag taskFlag modelFlag ⟨some e, g, od, ie⟩ fs).output ∧
    (main "run-agents" yamlFlag taskFlag modelFlag ⟨some e, g, od, ie⟩ fs).outcome = Outcome.returned := by
  refine ⟨rfl, ?_, rfl⟩
  show ("Error: " ++ e) ∈ ASCII_ART :: ["Error: " ++ e]
  simp

/-- Counterexample to C2 as stated: with the loader raising `boom`, the
`run-agents` run displays the error but ends with exit status 0 — the
exception is not re-raised, so the exit status is not non-zero. -/
theorem run_agents_loader_error_exit_zero :
    (main "run-agents" none none none ⟨some "boom", Except.ok true, [], none⟩ ⟨none⟩).outcome.exitCode = 0 ∧
    "Error: boom" ∈ (main "run-agents" none none none ⟨some "boom", Except.ok true, [], none⟩ ⟨none⟩).output := by
  constructor <;> decide

/-- Claim C6 (amended): failure of the upgrade subprocess is not caught
inside `check_and_upgrade_version` — it propagates out of that function —
but the dispatcher's inner catch-all then catches it, prints
`Error: <message>`, and returns, so the `auto-upgrade` run ends with exit
status 0 rather than non-zero. -/
theorem auto_upgrade_install_failure_propagates_to_dispatcher
    (outdated : List String) (e : String) (yamlFlag taskFlag modelFlag : Option String)
    (le : Option String) (g : Except String Bool) (fs : FSState)
    (h : ∃ p ∈ outdated, pyStartsWith p "swarms==" = true) :
    (check_and_upgrade_version outdated (some e)).exc = some e ∧
    (main "auto-upgrade" yamlFlag taskFlag modelFlag ⟨le, g, outdated, some e⟩ fs).outcome = Outcome.returned ∧
    ("Error: " ++ e) ∈ (main "auto-upgrade" yamlFlag taskFlag modelFlag ⟨le, g, outdated, some e⟩ fs).output := by
  have hf : (outdated.find? (fun package => pyStartsWith package "swarms==")).isSome = true := by
    rw [List.find?_isSome]
    exact h
  obtain ⟨q, hq⟩ := Option.isSome_iff_exists.mp hf
  refine ⟨?_, ?_, ?_⟩
  · simp [check_and_upgrade_version, hq]
  · simp [main, parse_args, dispatch, check_and_upgrade_version, hq, commandChoices]
  · simp [main, parse_args, dispatch, check_and_upgrade_version, hq, commandChoices]

/-- Witness for the amended C6: with one matching outdated line and a
failing installer, the exception leaves `check_and_upgrade_version`. -/
theorem auto_upgrade_install_failure_propagates_to_dispatcher_witness :
    (check_and_upgrade_version ["swarms==9.9.9"] (some "pip failed")).exc = some "pip failed" :=
  (auto_upgrade_install_failure_propagates_to_dispatcher ["swarms==9.9.9"] "pip failed"
      none none none none (Except.ok true) ⟨none⟩ (by decide)).1

/-- Counterexample to C6 as stated: with an update available and the
installer failing, the installer is invoked and its error is shown, but
the process exit status is 0 — the failure does not produce a non-zero
exit. -/
theorem auto_upgrade_install_failure_exit_zero :
    (main "auto-upgrade" none none none
        ⟨none, Except.ok true, ["swarms==5.0.0"], some "CalledProcessError"⟩ ⟨none⟩).outcome.exitCode = 0 ∧
    ExtCall.pipInstallUpgrade "swarms" ∈ (main "auto-upgrade" none none none
        ⟨none, Except.ok true, ["swarms==5.0.0"], some "CalledProcessError"⟩ ⟨none⟩).calls ∧
    "Error: CalledProcessError" ∈ (main "auto-upgrade" none none none
        ⟨none, Except.ok true, ["swarms==5.0.0"], some "CalledProcessError"⟩ ⟨none⟩).output := by
  refine ⟨?_, ?_, ?_⟩ <;> decide

/-- Claim C1 (amended): when `--task` is absent or the empty string, the
config generator is never invoked, the `Missing required argument: --task`
usage error is shown, and the process exits with code 1. When `--task` is
whitespace-only but non-empty, the generator is still never invoked, but
`run_autoswarm` raises and itself catches `Task cannot be empty`, showing
the generic error panel, and the process exits with status 0. -/
theorem autoswarm_empty_task_usage_error :
    (∀ (yamlFlag taskFlag modelFlag : Option String) (orc : Oracles) (fs : FSState),
      pyFalsy taskFlag = true →
        (main "autoswarm" yamlFlag taskFlag modelFlag orc fs).outcome = Outcome.exited 1 ∧
        (main "autoswarm" yamlFlag taskFlag modelFlag orc fs).output =
          [ASCII_ART, "Missing required argument: --task",
           "Example usage: python cli.py autoswarm --task 'analyze this data' --model gpt-4"] ∧
        (main "autoswarm" yamlFlag taskFlag modelFlag orc fs).calls = []) ∧
    (∀ (yamlFlag modelFlag : Option String) (t : String) (orc : Oracles) (fs : FSState),
      t ≠ "" → pyStrip t = "" →
        (main "autoswarm" yamlFlag (some t) modelFlag orc fs).outcome = Outcome.returned ∧
        (main "autoswarm" yamlFlag (some t) modelFlag orc fs).calls = [] ∧
        ("Error during autoswarm execution: " ++ "Task cannot be empty") ∈
          (main "autoswarm" yamlFlag (some t) modelFlag orc fs).output) := by
  constructor
  · intro yamlFlag taskFlag modelFlag orc fs h
    refine ⟨?_, ?_, ?_⟩ <;> simp [main, parse_args, dispatch, h, commandChoices]
  · intro yamlFlag modelFlag t orc fs h1 h2
    have hfal : pyFalsy (some t) = false := by simp [pyFalsy, h1]
    have hIn : pyIn "No YAML content found" "Task cannot be empty" = false := by decide
    refine ⟨?_, ?_, ?_⟩ <;>
      simp [main, parse_args, dispatch, hfal, run_autoswarm, run_autoswarm_try, h2,
            autoswarm_exc_handler, hIn, commandChoices]

/-- Witness for the amended C1: `--task ""` exits with status 1, while a
whitespace-only task returns normally (exit status 0). -/
theorem autoswarm_empty_task_usage_error_witness :
    (main "autoswarm" none (some "") none ⟨none, Except.ok true, [], none⟩ ⟨none⟩).outcome =
      Outcome.exited 1 ∧
    (main "autoswarm" none (some "\t ") none ⟨none, Except.ok true, [], none⟩ ⟨none⟩).outcome =
      Outcome.returned :=
  ⟨(autoswarm_empty_task_usage_error.1 none (some "") none ⟨none, Except.ok true, [], none⟩
      ⟨none⟩ (by decide)).1,
   (autoswarm_empty_task_usage_error.2 none none "\t " ⟨none, Except.ok true, [], none⟩
      ⟨none⟩ (by decide) (by decide)).1⟩

/-- Counterexample to C1 as stated: for `--task " "` (whitespace-only) the
generator is never invoked, but no `Missing required argument` usage error
appears and the process exits with status 0, not 1. -/
theorem autoswarm_whitespace_task_exit_zero :
    (main "autoswarm" none (some " ") none ⟨none, Except.ok true, [], none⟩ ⟨none⟩).outcome.exitCode = 0 ∧
    "Missing required argument: --task" ∉
      (main "autoswarm" none (some " ") none ⟨none, Except.ok true, [], none⟩ ⟨none⟩).output ∧
    (main "autoswarm" none (some " ") none ⟨none, Except.ok true, [], none⟩ ⟨none⟩).calls = [] := by
  refine ⟨?_, ?_, ?_⟩ <;> decide

/-- Claim C8: the autoswarm exception handler special-cases exactly one
substring — an exception whose text contains `No YAML content found` gets
the `Failed to generate YAML configuration` panel, every other exception
gets the generic `Error during autoswarm execution` panel. -/
theorem autoswarm_error_text_special_case (task model e : String)
    (ht : ¬(task = "" ∨ pyStrip task = "")) (hm : ¬(model = "" ∨ pyStrip model = "")) :
    (run_autoswarm task model (Except.error e)).2 =
      ["Initializing autoswarm configuration...", "Generating swarm for task: " ++ task]
      ++ (if pyIn "No YAML content found" e then
            ["Failed to generate YAML configuration", autoswarmYamlHelp]
          else
            ["Error during autoswarm execution: " ++ e, autoswarmGenericHelp]) := by
  simp only [run_autoswarm, run_autoswarm_try, ht, hm, autoswarm_exc_handler, if_false]
  split <;> simp

/-- Witness for C8: an exception containing the known substring selects
the YAML-configuration panel. -/
theorem autoswarm_error_text_special_case_witness :
    (run_autoswarm "sample task" "gpt-4" (Except.error "No YAML content found in response")).2 =
      ["Initializing autoswarm configuration...", "Generating swarm for task: " ++ "sample task"]
      ++ ["Failed to generate YAML configuration", autoswarmYamlHelp] := by
  have h := autoswarm_error_text_special_case "sample task" "gpt-4"
      "No YAML content found in response" (by decide) (by decide)
  rw [h]
  decide

/-- Claim C10: `run_autoswarm` never raises — whatever the generator does
(raises, or returns a falsy value), the exception is handled inside — so
an autoswarm invocation with a non-empty `--task` always returns normally
with process exit status 0. -/
theorem autoswarm_nonempty_task_returns_normally (t : String)
    (yamlFlag modelFlag : Option String) (orc : Oracles) (fs : FSState) (h : t ≠ "") :
    (main "autoswarm" yamlFlag (some t) modelFlag orc fs).outcome = Outcome.returned ∧
    (main "autoswarm" yamlFlag (some t) modelFlag orc fs).outcome.exitCode = 0 := by
  have hfal : pyFalsy (some t) = false := by simp [pyFalsy, h]
  have hret : (main "autoswarm" yamlFlag (some t) modelFlag orc fs).outcome = Outcome.returned := by
    simp [main, parse_args, dispatch, hfal, commandChoices]
  exact ⟨hret, by rw [hret]; rfl⟩

/-- Witness for C10: even with the generator raising, a non-empty task
ends the run normally. -/
theorem autoswarm_nonempty_task_returns_normally_witness :
    (main "autoswarm" none (some "analyze this data") none
        ⟨none, Except.error "upstream failure", [], none⟩ ⟨none⟩).outcome = Outcome.returned :=
  (autoswarm_nonempty_task_returns_normally "analyze this data" none none
      ⟨none, Except.error "upstream failure", [], none⟩ ⟨none⟩ (by decide)).1

end SwarmsCLI
